import Mathlib

/-!
# Verification of the `claro` building-energy simulator

Shallow embedding of `src/claro/simulate.py` and the pointwise part of
`src/claro/build_features.py`, together with proofs of the specified
properties.

Modelling conventions:

* Python `float` values are modelled as real numbers (`ℝ`).
* Python `datetime` values are modelled as a count of minutes since
  0001-01-01T00:00 in the proleptic Gregorian calendar (the same calendar
  `datetime` uses); `ordinal`, `weekday`, `yearOfOrdinal` and `dayOfYear`
  below mirror CPython's `date.toordinal` / `date.weekday` /
  `datetime._ord2ymd` arithmetic.
* `random.Random(seed)` is modelled as a deterministic stream of unit
  normal deviates: every call `rng.normalvariate(mu, sigma)` returns
  `mu + sigma * z_k` where `z_k` is the `k`-th deviate produced by the
  seeded generator (this is exactly how CPython's `normalvariate`
  combines its internally generated unit sample with `mu` and `sigma`),
  and advances the stream position by one.  The map from seed to stream
  is an explicit parameter `gauss` of `simulate`.
* Python `round(x, n)` rounds to `n` decimal places; it is modelled with
  Mathlib's `round` (`pyRound` below).  Python breaks exact `.5` ties
  to even while `round` breaks them upward; no property proved here
  touches a tie, and both functions are monotone and exact on integers,
  which is all the proofs use.
-/

namespace Claro

/-- Minutes since 0001-01-01T00:00, proleptic Gregorian (mirrors `datetime`). -/
abbrev Timestamp := ℕ

/-- Python `date.toordinal()` of the day containing the timestamp
(0001-01-01 has ordinal 1). -/
def ordinal (ts : Timestamp) : ℕ := ts / 1440 + 1

/-- Python `ts.hour`. -/
def tsHour (ts : Timestamp) : ℕ := ts % 1440 / 60

/-- Python `ts.minute`. -/
def tsMinute (ts : Timestamp) : ℕ := ts % 1440 % 60

/-- Python `ts.weekday()`: 0 = Monday … 6 = Sunday (ordinal 1 is a Monday). -/
def weekday (ts : Timestamp) : ℕ := (ordinal ts + 6) % 7

/-- The float `ts.hour + ts.minute / 60.0` used throughout the simulator,
as an exact rational (the float computation is exact at every comparison
the code performs). -/
def hourFrac (ts : Timestamp) : ℚ := (tsHour ts : ℚ) + (tsMinute ts : ℚ) / 60

/-- Number of days before January 1st of year `y`
(CPython `datetime._days_before_year`). -/
def daysBeforeYear (y : ℕ) : ℕ :=
  (y - 1) * 365 + (y - 1) / 4 - (y - 1) / 100 + (y - 1) / 400

/-- The calendar year containing day-ordinal `o`
(the year computation of CPython `datetime._ord2ymd`). -/
def yearOfOrdinal (o : ℕ) : ℕ :=
  let n := o - 1
  let n400 := n / 146097
  let r400 := n % 146097
  let n100 := r400 / 36524
  let r100 := r400 % 36524
  let n4 := r100 / 1461
  let r4 := r100 % 1461
  let n1 := r4 / 365
  let y := n400 * 400 + n100 * 100 + n4 * 4 + n1 + 1
  if n1 = 4 ∨ n100 = 4 then y - 1 else y

/-- Python `ts.timetuple().tm_yday`: 1-based day of year. -/
def dayOfYear (ts : Timestamp) : ℕ :=
  ordinal ts - daysBeforeYear (yearOfOrdinal (ordinal ts))

/-- The default simulation start, 2025-01-01T00:00:00. -/
def defaultStart : Timestamp := 739251 * 1440

/-- Structure `SimConfig` from `simulate.py` (field for field). -/
structure SimConfig where
  seed : ℤ
  freq_minutes : ℕ
  n_days : ℕ
  building_factor_x4 : ℝ
  base_kwh_when_closed : ℝ
  base_kwh_when_open : ℝ
  occ_to_activation : ℝ
  temp_to_activation : ℝ
  regime_to_activation : ℝ
  activation_to_kwh : ℝ
  direct_temp_to_kwh : ℝ
  inertia_phi : ℝ
  noise_sigma : ℝ
  academic_intensity : ℝ

/-- The dataclass defaults of `SimConfig`. -/
noncomputable def defaultConfig : SimConfig where
  seed := 123
  freq_minutes := 60
  n_days := 60
  building_factor_x4 := 1.10
  base_kwh_when_closed := 8
  base_kwh_when_open := 18
  occ_to_activation := 0.020
  temp_to_activation := 0.060
  regime_to_activation := 0.35
  activation_to_kwh := 35
  direct_temp_to_kwh := 0.50
  inertia_phi := 0.75
  noise_sigma := 2.5
  academic_intensity := 1

/-- Function `clamp` from `simulate.py`: `max(lo, min(hi, x))`. -/
noncomputable def clamp (x lo hi : ℝ) : ℝ := max lo (min hi x)

/-- Function `generate_time_index` from `simulate.py`:
`[start + timedelta(minutes=step_minutes) * i for i in range(n_steps)]`. -/
def generate_time_index (start : Timestamp) (n_steps step_minutes : ℕ) :
    List Timestamp :=
  (List.range n_steps).map fun i => start + step_minutes * i

/-- Function `simulate_outdoor_temp` from `simulate.py`. -/
noncomputable def simulate_outdoor_temp (ts : Timestamp)
    (seasonal_amp daily_amp : ℝ) : ℝ :=
  let day_of_year : ℝ := (dayOfYear ts : ℝ)
  let hour : ℝ := ((hourFrac ts : ℚ) : ℝ)
  let seasonal := 8 + seasonal_amp * Real.sin (2 * Real.pi * (day_of_year / 365))
  let daily := daily_amp * Real.sin (2 * Real.pi * ((hour - 5) / 24))
  seasonal + daily

/-- Function `simulate_open_regime` from `simulate.py`. -/
def simulate_open_regime (ts : Timestamp) : ℕ :=
  let h := hourFrac ts
  if weekday ts ≤ 4 then
    if 8 ≤ h ∧ h < 22 then 1 else 0
  else
    if 10 ≤ h ∧ h < 18 then 1 else 0

/-- The stream of unit normal deviates of a seeded `random.Random`, with the
current position; `normalvariate` consumes one deviate per call. -/
structure Rng where
  stream : ℕ → ℝ
  pos : ℕ

/-- Python `rng.normalvariate(mu, sigma)`: returns `mu + sigma * z` where `z` is the
next unit deviate of the stream, and advances the stream. -/
noncomputable def Rng.normalvariate (r : Rng) (mu sigma : ℝ) : ℝ × Rng :=
  (mu + sigma * r.stream r.pos, ⟨r.stream, r.pos + 1⟩)

/-- Function `simulate_occupancy` from `simulate.py`; the `Rng` threading makes the
Python generator's mutation explicit.  Note the early return: when the
regime is closed no deviate is consumed. -/
noncomputable def simulate_occupancy (ts : Timestamp) (open_regime : ℕ)
    (academic_intensity : ℝ) (rng : Rng) : ℝ × Rng :=
  if open_regime = 0 then (0, rng)
  else
    let hour : ℝ := ((hourFrac ts : ℚ) : ℝ)
    let daily_profile : ℝ :=
      0.6 * Real.exp (-((hour - 13) ^ 2) / (2 * 3.5 ^ 2)) +
      0.4 * Real.exp (-((hour - 18) ^ 2) / (2 * 2.8 ^ 2))
    let weekday_multiplier : ℝ := if weekday ts ≤ 4 then 1 else 0.65
    let base_capacity : ℝ := 180 * academic_intensity
    let nr := rng.normalvariate 0 8
    let occ := base_capacity * daily_profile * weekday_multiplier + nr.1
    (clamp occ 0 220, nr.2)

/-- Function `temp_pressure` from `simulate.py` (the simulator's piecewise form). -/
noncomputable def temp_pressure (temp_out comfort_low comfort_high : ℝ) : ℝ :=
  if temp_out < comfort_low then comfort_low - temp_out
  else if comfort_high < temp_out then temp_out - comfort_high
  else 0

/-- Python `round(x, n)` (see the tie-breaking note in the file header). -/
noncomputable def pyRound (n : ℕ) (x : ℝ) : ℝ :=
  ((round (x * 10 ^ n) : ℤ) : ℝ) / 10 ^ n

/-- One output row of `simulate` (the Python dict, with the rounding already
applied; `timestamp` stands for the `ts.isoformat()` string, which is a
faithful image of the timestamp). -/
structure Record where
  timestamp : Timestamp
  x1_occupancy : ℝ
  x2_temp_out : ℝ
  x2_temp_pressure : ℝ
  x3_open : ℝ
  x4_building_factor : ℝ
  x5_availability : ℝ
  m1_activation : ℝ
  y_kwh : ℝ

/-- The body of the `for ts in times` loop of `simulate`, with the loop
state (`y_prev` and the generator) made explicit: returns the emitted
record and the updated state. -/
noncomputable def simStep (cfg : SimConfig) (ts : Timestamp) (y_prev : ℝ)
    (rng : Rng) : Record × ℝ × Rng :=
    let x3_open := simulate_open_regime ts
    let x2_temp_out := simulate_outdoor_temp ts 9.0 3.5
    let x2_pressure := temp_pressure x2_temp_out 20 23
    let occr := simulate_occupancy ts x3_open cfg.academic_intensity rng
    let x1_occ := occr.1
    let x5_availability := (0.7 + 0.3 * (x3_open : ℝ)) * cfg.building_factor_x4
    let m1_raw :=
      (cfg.regime_to_activation * (x3_open : ℝ) +
       cfg.occ_to_activation * x1_occ +
       cfg.temp_to_activation * x2_pressure) * x5_availability
    let m1_activation := clamp m1_raw 0 2
    let baseline :=
      (if x3_open = 1 then cfg.base_kwh_when_open else cfg.base_kwh_when_closed) *
        cfg.building_factor_x4
    let y_det := baseline + cfg.activation_to_kwh * m1_activation +
      cfg.direct_temp_to_kwh * x2_pressure
    let nr := occr.2.normalvariate 0 cfg.noise_sigma
    let y_kwh := max 0 (cfg.inertia_phi * y_prev +
      (1 - cfg.inertia_phi) * y_det + nr.1)
    let rec_ : Record :=
      { timestamp := ts
        x1_occupancy := pyRound 3 x1_occ
        x2_temp_out := pyRound 3 x2_temp_out
        x2_temp_pressure := pyRound 3 x2_pressure
        x3_open := (x3_open : ℝ)
        x4_building_factor := pyRound 3 cfg.building_factor_x4
        x5_availability := pyRound 3 x5_availability
        m1_activation := pyRound 4 m1_activation
        y_kwh := pyRound 4 y_kwh }
    (rec_, y_kwh, nr.2)

/-- The `for ts in times` loop of `simulate`: iterates `simStep`, collecting
the emitted records and threading `y_prev` and the generator. -/
noncomputable def simLoop (cfg : SimConfig) :
    List Timestamp → ℝ → Rng → List Record × ℝ × Rng
  | [], y_prev, rng => ([], y_prev, rng)
  | ts :: rest, y_prev, rng =>
    let s := simStep cfg ts y_prev rng
    let tail := simLoop cfg rest s.2.1 s.2.2
    (s.1 :: tail.1, tail.2)

/-- Function `simulate(cfg, start)` from `simulate.py`.  `gauss` maps a seed to the
stream of unit normal deviates of `random.Random(seed)`; `start = none`
selects the default start 2025-01-01T00:00:00. -/
noncomputable def simulate (gauss : ℤ → ℕ → ℝ) (cfg : SimConfig)
    (start : Option Timestamp) : List Record :=
  let rng : Rng := ⟨gauss cfg.seed, 0⟩
  let start' := start.getD defaultStart
  let steps_per_day := (24 * 60) / cfg.freq_minutes
  let n_steps := cfg.n_days * steps_per_day
  let times := generate_time_index start' n_steps cfg.freq_minutes
  (simLoop cfg times cfg.base_kwh_when_closed rng).1

/-- A cell value of an output row (`ts.isoformat()` strings are represented
by the timestamp itself, which determines them). -/
inductive Val where
  | str : String → Val
  | num : ℝ → Val
  | time : Timestamp → Val

/-- The ordered field names of the dict built by `simulate`. -/
def recordFields : List String :=
  ["timestamp", "X1_occupancy", "X2_temp_out", "X2_temp_pressure", "X3_open",
   "X4_building_factor", "X5_availability", "M1_activation", "Y_kwh"]

/-- The Python dict of a record: ordered key/value pairs. -/
noncomputable def Record.toRow (r : Record) : List (String × Val) :=
  [("timestamp", Val.time r.timestamp),
   ("X1_occupancy", Val.num r.x1_occupancy),
   ("X2_temp_out", Val.num r.x2_temp_out),
   ("X2_temp_pressure", Val.num r.x2_temp_pressure),
   ("X3_open", Val.num r.x3_open),
   ("X4_building_factor", Val.num r.x4_building_factor),
   ("X5_availability", Val.num r.x5_availability),
   ("M1_activation", Val.num r.m1_activation),
   ("Y_kwh", Val.num r.y_kwh)]

/-- The file produced by `write_csv`: the header row and the data rows. -/
structure CsvFile where
  header : List String
  body : List (List (String × Val))

/-- Function `write_csv` from `simulate.py`.  `fieldnames = list(rows[0].keys()) if
rows else []`; `csv.DictWriter` (default `extrasaction='raise'`) raises
`ValueError` iff some row holds a key outside `fieldnames`, which is the
only failure path, modelled as `Except.error`; in particular `rows = []`
succeeds and writes an empty header row. -/
def write_csv (rows : List (List (String × Val))) : Except String CsvFile :=
  let fieldnames := match rows with
    | [] => []
    | r :: _ => r.map Prod.fst
  if rows.all fun r => r.all fun kv => fieldnames.contains kv.1 then
    Except.ok ⟨fieldnames, rows⟩
  else
    Except.error "dict contains fields not in fieldnames"

/-- Structure `FeatureConfig` from `build_features.py` (the fields the pointwise
comfort-pressure path uses). -/
structure FeatureConfig where
  comfort_low : ℝ
  comfort_high : ℝ

/-- The dataclass defaults of `FeatureConfig`'s comfort band. -/
noncomputable def defaultFeatureConfig : FeatureConfig where
  comfort_low := 20
  comfort_high := 23

/-- Function `_temp_pressure` from `build_features.py`, pointwise on one series
element: `(low - t).clip(lower=0) + (t - high).clip(lower=0)`. -/
noncomputable def _temp_pressure (temp_out low high : ℝ) : ℝ :=
  max (low - temp_out) 0 + max (temp_out - high) 0

/-! ## Elementary lemmas about the embedded operations -/

lemma simulate_open_regime_eq_zero_or_one (ts : Timestamp) :
    simulate_open_regime ts = 0 ∨ simulate_open_regime ts = 1 := by
  unfold simulate_open_regime
  dsimp only
  split_ifs <;> simp

lemma pyRound_mono (n : ℕ) {x y : ℝ} (h : x ≤ y) : pyRound n x ≤ pyRound n y := by
  unfold pyRound
  have h10 : (0 : ℝ) < 10 ^ n := by positivity
  rw [div_le_div_iff_of_pos_right h10]
  have h1 : round (x * 10 ^ n) ≤ round (y * 10 ^ n) := by
    rw [round_eq, round_eq]
    exact Int.floor_le_floor (by nlinarith)
  exact_mod_cast h1

lemma pyRound_zero (n : ℕ) : pyRound n 0 = 0 := by
  simp [pyRound]

lemma pyRound_natCast (n m : ℕ) : pyRound n (m : ℝ) = m := by
  unfold pyRound
  have h : ((m : ℝ) * 10 ^ n) = ((m * 10 ^ n : ℕ) : ℝ) := by push_cast; ring
  rw [h, round_natCast]
  have h10 : (10 : ℝ) ^ n ≠ 0 := by positivity
  push_cast
  field_simp

lemma pyRound_nonneg (n : ℕ) {x : ℝ} (h : 0 ≤ x) : 0 ≤ pyRound n x :=
  pyRound_zero n ▸ pyRound_mono n h

lemma clamp_lower (x lo hi : ℝ) : lo ≤ clamp x lo hi := le_max_left _ _

lemma clamp_upper (x : ℝ) {lo hi : ℝ} (h : lo ≤ hi) : clamp x lo hi ≤ hi :=
  max_le h (min_le_left _ _)

lemma clamp_of_le_lo {x lo : ℝ} (hi : ℝ) (hx : x ≤ lo) (hlohi : lo ≤ hi) :
    clamp x lo hi = lo := by
  unfold clamp
  rw [min_eq_right (hx.trans hlohi), max_eq_left hx]

lemma simLoop_length (cfg : SimConfig) :
    ∀ (l : List Timestamp) (y : ℝ) (r : Rng),
      (simLoop cfg l y r).1.length = l.length
  | [], _, _ => rfl
  | _ :: rest, y, r => by
    simp only [simLoop, List.length_cons]
    rw [simLoop_length cfg rest]

lemma simulate_length (gauss : ℤ → ℕ → ℝ) (cfg : SimConfig)
    (start : Option Timestamp) :
    (simulate gauss cfg start).length = cfg.n_days * (1440 / cfg.freq_minutes) := by
  simp [simulate, simLoop_length, generate_time_index]

lemma simLoop_get (cfg : SimConfig) :
    ∀ (l : List Timestamp) (k : ℕ) (h : k < l.length) (y : ℝ) (r : Rng),
      (simLoop cfg l y r).1.get ⟨k, by rw [simLoop_length]; exact h⟩ =
        (simStep cfg (l.get ⟨k, h⟩)
          (simLoop cfg (l.take k) y r).2.1 (simLoop cfg (l.take k) y r).2.2).1
  | ts :: rest, 0, _, y, r => by
    simp [simLoop]
  | ts :: rest, k + 1, h, y, r => by
    have h' : k < rest.length := by simpa using Nat.lt_of_succ_lt_succ h
    simp only [simLoop, List.get, List.take]
    exact simLoop_get cfg rest k h' _ _

lemma simLoop_state_take_succ (cfg : SimConfig) :
    ∀ (l : List Timestamp) (k : ℕ) (h : k < l.length) (y : ℝ) (r : Rng),
      (simLoop cfg (l.take (k + 1)) y r).2 =
        (simStep cfg (l.get ⟨k, h⟩)
          (simLoop cfg (l.take k) y r).2.1 (simLoop cfg (l.take k) y r).2.2).2
  | ts :: rest, 0, _, y, r => by
    simp [simLoop]
  | ts :: rest, k + 1, h, y, r => by
    have h' : k < rest.length := by simpa using Nat.lt_of_succ_lt_succ h
    simp only [List.take, simLoop, List.get]
    exact simLoop_state_take_succ cfg rest k h' _ _

/-! ## C1: determinism -/

/-- C1: two `simulate` calls with identical configuration (in particular the
same seed, hence the same seeded deviate stream) and identical start produce
identical record sequences, field for field. -/
theorem c1_simulate_deterministic (gauss₁ gauss₂ : ℤ → ℕ → ℝ)
    (cfg₁ cfg₂ : SimConfig) (start₁ start₂ : Option Timestamp)
    (hg : gauss₁ cfg₁.seed = gauss₂ cfg₂.seed)
    (hc : cfg₁ = cfg₂) (hs : start₁ = start₂) :
    simulate gauss₁ cfg₁ start₁ = simulate gauss₂ cfg₂ start₂ := by
  subst hc hs
  simp only [simulate, hg]

/-- Witness for C1 at the default configuration and default start. -/
theorem c1_simulate_deterministic_witness :
    simulate (fun _ _ => 0) defaultConfig none =
      simulate (fun _ _ => 0) defaultConfig none :=
  c1_simulate_deterministic (fun _ _ => 0) (fun _ _ => 0) defaultConfig
    defaultConfig none none rfl rfl rfl

/-! ## C8: the two comfort-pressure implementations agree -/

/-- C8: for `low ≤ high` the simulator's piecewise `temp_pressure` and the
feature builder's clipped-sum `_temp_pressure` coincide, and the two
components use identical default bands `[20, 23]`. -/
theorem c8_temp_pressure_refinement :
    (∀ t low high : ℝ, low ≤ high →
      temp_pressure t low high = _temp_pressure t low high) ∧
    defaultFeatureConfig.comfort_low = 20 ∧
    defaultFeatureConfig.comfort_high = 23 ∧
    (∀ t : ℝ, temp_pressure t 20 23 =
      _temp_pressure t defaultFeatureConfig.comfort_low
        defaultFeatureConfig.comfort_high) := by
  have main : ∀ t low high : ℝ, low ≤ high →
      temp_pressure t low high = _temp_pressure t low high := by
    intro t low high h
    unfold temp_pressure _temp_pressure
    split_ifs with h1 h2
    · rw [max_eq_left (by linarith), max_eq_right (by linarith)]
      ring
    · rw [max_eq_right (by linarith), max_eq_left (by linarith)]
      ring
    · rw [max_eq_right (by linarith), max_eq_right (by linarith)]
      ring
  refine ⟨main, rfl, rfl, fun t => ?_⟩
  exact main t 20 23 (by norm_num)

/-- Witness for C8 at the default band and `t = 25`. -/
theorem c8_temp_pressure_refinement_witness :
    temp_pressure 25 20 23 = _temp_pressure 25 20 23 :=
  c8_temp_pressure_refinement.1 25 20 23 (by norm_num)

/-! ## C9: the open/closed schedule -/

/-- C9: `simulate_open_regime` is 1 exactly on weekday hours `[08:00, 22:00)`
and weekend hours `[10:00, 18:00)`, 0 otherwise; concretely it is 1 on
Wednesday 2025-01-01 09:00 and Saturday 2025-01-04 11:00 and 0 on
Wednesday 23:00 and Saturday 09:00. -/
theorem c9_open_regime_schedule :
    (∀ ts : Timestamp,
      (simulate_open_regime ts = 1 ↔
        ((weekday ts ≤ 4 ∧ 8 ≤ hourFrac ts ∧ hourFrac ts < 22) ∨
         (5 ≤ weekday ts ∧ 10 ≤ hourFrac ts ∧ hourFrac ts < 18))) ∧
      (simulate_open_regime ts = 0 ↔
        ¬((weekday ts ≤ 4 ∧ 8 ≤ hourFrac ts ∧ hourFrac ts < 22) ∨
          (5 ≤ weekday ts ∧ 10 ≤ hourFrac ts ∧ hourFrac ts < 18)))) ∧
    weekday (defaultStart + 9 * 60) = 2 ∧
    weekday (defaultStart + 3 * 1440 + 11 * 60) = 5 ∧
    simulate_open_regime (defaultStart + 9 * 60) = 1 ∧
    simulate_open_regime (defaultStart + 23 * 60) = 0 ∧
    simulate_open_regime (defaultStart + 3 * 1440 + 11 * 60) = 1 ∧
    simulate_open_regime (defaultStart + 3 * 1440 + 9 * 60) = 0 := by
  refine ⟨fun ts => ?_, by decide, by decide, ?_, ?_, ?_, ?_⟩
  · unfold simulate_open_regime
    rcases le_or_lt (weekday ts) 4 with hw | hw
    · rw [if_pos hw]
      have h5 : ¬ 5 ≤ weekday ts := by omega
      by_cases ho : 8 ≤ hourFrac ts ∧ hourFrac ts < 22
      · rw [if_pos ho]
        simp [hw, ho, h5]
      · rw [if_neg ho]
        simp [hw, ho, h5]
    · rw [if_neg (by omega)]
      have h5 : 5 ≤ weekday ts := by omega
      have h4 : ¬ weekday ts ≤ 4 := by omega
      by_cases ho : 10 ≤ hourFrac ts ∧ hourFrac ts < 18
      · rw [if_pos ho]
        simp [ho, h5, h4]
      · rw [if_neg ho]
        simp [ho, h5, h4]
  all_goals
    norm_num [simulate_open_regime, hourFrac, tsHour, tsMinute, weekday,
      ordinal, defaultStart]

/-! ## C5: the time grid -/

lemma simStep_timestamp (cfg : SimConfig) (ts : Timestamp) (y : ℝ) (r : Rng) :
    (simStep cfg ts y r).1.timestamp = ts := rfl

lemma simLoop_timestamps (cfg : SimConfig) :
    ∀ (l : List Timestamp) (y : ℝ) (r : Rng),
      (simLoop cfg l y r).1.map Record.timestamp = l
  | [], _, _ => rfl
  | ts :: rest, y, r => by
    simp only [simLoop, List.map_cons, simStep_timestamp]
    rw [simLoop_timestamps cfg rest]

/-- C5: with `freq_minutes` dividing 1440, `simulate` emits exactly
`n_days * (1440 / freq_minutes)` records (1440 of them for `n_days = 60`,
`freq_minutes = 60`); their timestamps are `s0, s0 + freq, s0 + 2·freq, …`
(with `s0` the requested start, defaulting to 2025-01-01T00:00:00), a
strictly increasing sequence spaced exactly `freq_minutes` apart. -/
theorem c5_time_grid (gauss : ℤ → ℕ → ℝ) (cfg : SimConfig)
    (start : Option Timestamp) (hdiv : cfg.freq_minutes ∣ 1440) :
    (simulate gauss cfg start).length =
      cfg.n_days * (1440 / cfg.freq_minutes) ∧
    (cfg.n_days = 60 → cfg.freq_minutes = 60 →
      (simulate gauss cfg start).length = 1440) ∧
    (simulate gauss cfg start).map Record.timestamp =
      (List.range (cfg.n_days * (1440 / cfg.freq_minutes))).map
        (fun k => start.getD defaultStart + cfg.freq_minutes * k) ∧
    List.Chain' (fun a b => a < b ∧ b = a + cfg.freq_minutes)
      ((simulate gauss cfg start).map Record.timestamp) ∧
    (yearOfOrdinal (ordinal defaultStart) = 2025 ∧ dayOfYear defaultStart = 1 ∧
      tsHour defaultStart = 0 ∧ tsMinute defaultStart = 0) := by
  have hf : 0 < cfg.freq_minutes := by
    rcases Nat.eq_zero_or_pos cfg.freq_minutes with h | h
    · rw [h, zero_dvd_iff] at hdiv
      exact absurd hdiv (by norm_num)
    · exact h
  have hmap : (simulate gauss cfg start).map Record.timestamp =
      (List.range (cfg.n_days * (1440 / cfg.freq_minutes))).map
        (fun k => start.getD defaultStart + cfg.freq_minutes * k) := by
    show (simLoop cfg _ _ _).1.map Record.timestamp = _
    rw [simLoop_timestamps]
    rfl
  refine ⟨simulate_length gauss cfg start, ?_, hmap, ?_, by decide⟩
  · intro h60 hf60
    rw [simulate_length, h60, hf60]
  · rw [hmap, List.chain'_map]
    rcases Nat.eq_zero_or_pos (cfg.n_days * (1440 / cfg.freq_minutes)) with h0 | h0
    · rw [h0]
      exact List.chain'_nil
    · obtain ⟨m, hm⟩ := Nat.exists_eq_succ_of_ne_zero h0.ne'
      rw [hm, List.chain'_range_succ]
      intro i hi
      simp only [Nat.succ_eq_add_one]
      have hmul : cfg.freq_minutes * (i + 1) =
          cfg.freq_minutes * i + cfg.freq_minutes := by ring
      exact ⟨by omega, by omega⟩

/-- Witness for C5 at the default configuration (hourly grid, 60 days). -/
theorem c5_time_grid_witness :
    (simulate (fun _ _ => 0) defaultConfig none).length =
        defaultConfig.n_days * (1440 / defaultConfig.freq_minutes) ∧
      (defaultConfig.n_days = 60 → defaultConfig.freq_minutes = 60 →
        (simulate (fun _ _ => 0) defaultConfig none).length = 1440) ∧
      (simulate (fun _ _ => 0) defaultConfig none).map Record.timestamp =
        (List.range (defaultConfig.n_days * (1440 / defaultConfig.freq_minutes))).map
          (fun k => (none : Option Timestamp).getD defaultStart +
            defaultConfig.freq_minutes * k) ∧
      List.Chain' (fun a b => a < b ∧ b = a + defaultConfig.freq_minutes)
        ((simulate (fun _ _ => 0) defaultConfig none).map Record.timestamp) ∧
      (yearOfOrdinal (ordinal defaultStart) = 2025 ∧ dayOfYear defaultStart = 1 ∧
        tsHour defaultStart = 0 ∧ tsMinute defaultStart = 0) :=
  c5_time_grid (fun _ _ => 0) defaultConfig none (by decide)

/-! ## C2: accounting of the random draws -/

lemma simStep_rng (cfg : SimConfig) (ts : Timestamp) (y : ℝ) (r : Rng) :
    (simStep cfg ts y r).2.2 =
      ⟨r.stream, r.pos + (1 + simulate_open_regime ts)⟩ := by
  rcases simulate_open_regime_eq_zero_or_one ts with h | h <;>
    simp [simStep, simulate_occupancy, Rng.normalvariate, h, Rng.mk.injEq]

lemma simLoop_rng (cfg : SimConfig) :
    ∀ (l : List Timestamp) (y : ℝ) (r : Rng),
      (simLoop cfg l y r).2.2.stream = r.stream ∧
      (simLoop cfg l y r).2.2.pos =
        r.pos + (l.map fun ts => 1 + simulate_open_regime ts).sum
  | [], _, _ => by simp [simLoop]
  | ts :: rest, y, r => by
    simp only [simLoop, List.map_cons, List.sum_cons]
    rw [simStep_rng]
    have ih := simLoop_rng cfg rest ((simStep cfg ts y r).2.1)
      ⟨r.stream, r.pos + (1 + simulate_open_regime ts)⟩
    have ih2 : (simLoop cfg rest ((simStep cfg ts y r).2.1)
        ⟨r.stream, r.pos + (1 + simulate_open_regime ts)⟩).2.2.pos =
        r.pos + (1 + simulate_open_regime ts) +
          (rest.map fun ts => 1 + simulate_open_regime ts).sum := ih.2
    exact ⟨ih.1, by rw [ih2]; omega⟩

/-- C2 counterexample: the first step of a run at the default start
(Wednesday 2025-01-01 00:00, closed regime) consumes one deviate, not two:
after the step the generator position is 1. -/
theorem c2_counterexample :
    simulate_open_regime defaultStart = 0 ∧
    (simLoop defaultConfig [defaultStart] 8.0 ⟨fun _ => 0, 0⟩).2.2.pos = 1 := by
  have h0 : simulate_open_regime defaultStart = 0 := by
    norm_num [simulate_open_regime, hourFrac, tsHour, tsMinute, weekday,
      ordinal, defaultStart]
  refine ⟨h0, ?_⟩
  rw [(simLoop_rng defaultConfig [defaultStart] 8.0 ⟨fun _ => 0, 0⟩).2]
  simp [h0]

/-- C2 (amended): the loop consumes the single seeded stream strictly
sequentially and never replaces it (no re-seeding); a step at an open
timestamp consumes the occupancy deviate first and the noise deviate second
(two draws), while a step at a closed timestamp consumes only the noise
deviate (one draw). -/
theorem c2_draw_accounting (cfg : SimConfig) (l : List Timestamp) (y : ℝ)
    (r : Rng) :
    ((simLoop cfg l y r).2.2.stream = r.stream ∧
     (simLoop cfg l y r).2.2.pos =
       r.pos + (l.map fun ts => 1 + simulate_open_regime ts).sum) ∧
    (∀ (ts : Timestamp) (y' : ℝ) (r' : Rng), simulate_open_regime ts = 0 →
      (simulate_occupancy ts (simulate_open_regime ts)
        cfg.academic_intensity r').2 = r' ∧
      (simStep cfg ts y' r').2.2 = ⟨r'.stream, r'.pos + 1⟩) ∧
    (∀ (ts : Timestamp) (y' : ℝ) (r' : Rng), simulate_open_regime ts = 1 →
      (simulate_occupancy ts (simulate_open_regime ts)
        cfg.academic_intensity r').2 = ⟨r'.stream, r'.pos + 1⟩ ∧
      (simStep cfg ts y' r').2.2 = ⟨r'.stream, r'.pos + 2⟩) := by
  refine ⟨simLoop_rng cfg l y r, ?_, ?_⟩
  · intro ts y' r' h
    refine ⟨by simp [simulate_occupancy, h], ?_⟩
    rw [simStep_rng, h]
  · intro ts y' r' h
    refine ⟨by simp [simulate_occupancy, h, Rng.normalvariate], ?_⟩
    rw [simStep_rng, h]

/-- Witness for C2 (amended): one closed and one open step at concrete
timestamps. -/
theorem c2_draw_accounting_witness :
    ((simulate_occupancy defaultStart (simulate_open_regime defaultStart)
        defaultConfig.academic_intensity ⟨fun _ => 0, 0⟩).2 = ⟨fun _ => 0, 0⟩ ∧
      (simStep defaultConfig defaultStart 8.0 ⟨fun _ => 0, 0⟩).2.2 =
        ⟨(fun _ => 0 : ℕ → ℝ), 1⟩) ∧
    ((simulate_occupancy (defaultStart + 9 * 60)
        (simulate_open_regime (defaultStart + 9 * 60))
        defaultConfig.academic_intensity ⟨fun _ => 0, 0⟩).2 =
          ⟨(fun _ => 0 : ℕ → ℝ), 1⟩ ∧
      (simStep defaultConfig (defaultStart + 9 * 60) 8.0 ⟨fun _ => 0, 0⟩).2.2 =
        ⟨(fun _ => 0 : ℕ → ℝ), 2⟩) := by
  have h0 : simulate_open_regime defaultStart = 0 := by
    norm_num [simulate_open_regime, hourFrac, tsHour, tsMinute, weekday,
      ordinal, defaultStart]
  have h1 : simulate_open_regime (defaultStart + 9 * 60) = 1 := by
    norm_num [simulate_open_regime, hourFrac, tsHour, tsMinute, weekday,
      ordinal, defaultStart]
  exact ⟨(c2_draw_accounting defaultConfig [] 8.0 ⟨fun _ => 0, 0⟩).2.1
      defaultStart 8.0 ⟨fun _ => 0, 0⟩ h0,
    (c2_draw_accounting defaultConfig [] 8.0 ⟨fun _ => 0, 0⟩).2.2
      (defaultStart + 9 * 60) 8.0 ⟨fun _ => 0, 0⟩ h1⟩

/-! ## C3: record invariants -/

lemma simulate_occupancy_bounds (ts : Timestamp) (reg : ℕ) (ai : ℝ)
    (r : Rng) :
    0 ≤ (simulate_occupancy ts reg ai r).1 ∧
      (simulate_occupancy ts reg ai r).1 ≤ 220 := by
  unfold simulate_occupancy
  split_ifs with h h'
  · norm_num
  · exact ⟨clamp_lower _ _ _, clamp_upper _ (by norm_num)⟩
  · exact ⟨clamp_lower _ _ _, clamp_upper _ (by norm_num)⟩

lemma simStep_x1 (cfg : SimConfig) (ts : Timestamp) (y : ℝ) (r : Rng) :
    (simStep cfg ts y r).1.x1_occupancy =
      pyRound 3 (simulate_occupancy ts (simulate_open_regime ts)
        cfg.academic_intensity r).1 := rfl

lemma simStep_x3 (cfg : SimConfig) (ts : Timestamp) (y : ℝ) (r : Rng) :
    (simStep cfg ts y r).1.x3_open = (simulate_open_regime ts : ℝ) := rfl

lemma simStep_record_bounds (cfg : SimConfig) (ts : Timestamp) (y : ℝ)
    (r : Rng) :
    (0 ≤ (simStep cfg ts y r).1.x1_occupancy ∧
      (simStep cfg ts y r).1.x1_occupancy ≤ 220) ∧
    ((simStep cfg ts y r).1.x3_open = 0 →
      (simStep cfg ts y r).1.x1_occupancy = 0) ∧
    (0 ≤ (simStep cfg ts y r).1.m1_activation ∧
      (simStep cfg ts y r).1.m1_activation ≤ 2) ∧
    0 ≤ (simStep cfg ts y r).1.y_kwh := by
  obtain ⟨X, hm1⟩ : ∃ X, (simStep cfg ts y r).1.m1_activation =
      pyRound 4 (clamp X 0 2) := ⟨_, rfl⟩
  obtain ⟨Y, hy⟩ : ∃ Y, (simStep cfg ts y r).1.y_kwh =
      pyRound 4 (max 0 Y) := ⟨_, rfl⟩
  have hocc := simulate_occupancy_bounds ts (simulate_open_regime ts)
    cfg.academic_intensity r
  refine ⟨⟨?_, ?_⟩, ?_, ⟨?_, ?_⟩, ?_⟩
  · rw [simStep_x1]
    exact pyRound_nonneg 3 hocc.1
  · rw [simStep_x1]
    calc pyRound 3 (simulate_occupancy ts (simulate_open_regime ts)
        cfg.academic_intensity r).1 ≤ pyRound 3 ((220 : ℕ) : ℝ) :=
          pyRound_mono 3 (by exact_mod_cast hocc.2)
    _ = 220 := by rw [pyRound_natCast]; norm_num
  · intro h3
    rw [simStep_x3] at h3
    have hreg : simulate_open_regime ts = 0 := by exact_mod_cast h3
    rw [simStep_x1, hreg]
    have : (simulate_occupancy ts 0 cfg.academic_intensity r).1 = 0 := by
      simp [simulate_occupancy]
    rw [this, pyRound_zero]
  · rw [hm1]
    exact pyRound_nonneg 4 (clamp_lower _ _ _)
  · rw [hm1]
    calc pyRound 4 (clamp X 0 2) ≤ pyRound 4 ((2 : ℕ) : ℝ) :=
          pyRound_mono 4 (by exact_mod_cast clamp_upper X (by norm_num))
    _ = 2 := by rw [pyRound_natCast]; norm_num
  · rw [hy]
    exact pyRound_nonneg 4 (le_max_left _ _)

lemma simLoop_record_bounds (cfg : SimConfig) :
    ∀ (l : List Timestamp) (y : ℝ) (r : Rng) (rec : Record),
      rec ∈ (simLoop cfg l y r).1 →
      (0 ≤ rec.x1_occupancy ∧ rec.x1_occupancy ≤ 220) ∧
      (rec.x3_open = 0 → rec.x1_occupancy = 0) ∧
      (0 ≤ rec.m1_activation ∧ rec.m1_activation ≤ 2) ∧
      0 ≤ rec.y_kwh
  | [], _, _, _, h => by simp [simLoop] at h
  | ts :: rest, y, r, rec, h => by
    simp only [simLoop, List.mem_cons] at h
    rcases h with h | h
    · subst h
      exact simStep_record_bounds cfg ts y r
    · exact simLoop_record_bounds cfg rest _ _ rec h

/-- C3: every record emitted by `simulate` satisfies
`0 ≤ X1_occupancy ≤ 220`, with `X1_occupancy = 0` whenever `X3_open = 0`,
`0 ≤ M1_activation ≤ 2`, and `Y_kwh ≥ 0`. -/
theorem c3_record_invariants (gauss : ℤ → ℕ → ℝ) (cfg : SimConfig)
    (start : Option Timestamp) (rec : Record)
    (hrec : rec ∈ simulate gauss cfg start) :
    (0 ≤ rec.x1_occupancy ∧ rec.x1_occupancy ≤ 220) ∧
    (rec.x3_open = 0 → rec.x1_occupancy = 0) ∧
    (0 ≤ rec.m1_activation ∧ rec.m1_activation ≤ 2) ∧
    0 ≤ rec.y_kwh :=
  simLoop_record_bounds cfg _ _ _ rec hrec

/-- A one-step configuration used by concrete witnesses: a single 1440-minute
step over one day. -/
noncomputable def witnessConfig : SimConfig :=
  { defaultConfig with freq_minutes := 1440, n_days := 1 }

lemma simulate_witnessConfig :
    simulate (fun _ _ => 0) witnessConfig none =
      [(simStep witnessConfig defaultStart 8.0 ⟨fun _ => 0, 0⟩).1] := by
  show (simLoop _ (generate_time_index _ _ _) _ _).1 = _
  norm_num [witnessConfig, defaultConfig, generate_time_index,
    List.range_succ, simLoop]

/-- Witness for C3: the single record of a concrete one-step run. -/
theorem c3_record_invariants_witness :
    (simStep witnessConfig defaultStart 8.0 ⟨fun _ => 0, 0⟩).1 ∈
      simulate (fun _ _ => 0) witnessConfig none ∧
    ((0 ≤ (simStep witnessConfig defaultStart 8.0 ⟨fun _ => 0, 0⟩).1.x1_occupancy ∧
      (simStep witnessConfig defaultStart 8.0 ⟨fun _ => 0, 0⟩).1.x1_occupancy ≤ 220) ∧
    ((simStep witnessConfig defaultStart 8.0 ⟨fun _ => 0, 0⟩).1.x3_open = 0 →
      (simStep witnessConfig defaultStart 8.0 ⟨fun _ => 0, 0⟩).1.x1_occupancy = 0) ∧
    (0 ≤ (simStep witnessConfig defaultStart 8.0 ⟨fun _ => 0, 0⟩).1.m1_activation ∧
      (simStep witnessConfig defaultStart 8.0 ⟨fun _ => 0, 0⟩).1.m1_activation ≤ 2) ∧
    0 ≤ (simStep witnessConfig defaultStart 8.0 ⟨fun _ => 0, 0⟩).1.y_kwh) := by
  have hmem : (simStep witnessConfig defaultStart 8.0 ⟨fun _ => 0, 0⟩).1 ∈
      simulate (fun _ _ => 0) witnessConfig none := by
    rw [simulate_witnessConfig]
    exact List.mem_singleton_self _
  exact ⟨hmem, c3_record_invariants (fun _ _ => 0) witnessConfig none _ hmem⟩

/-! ## C6: the tabular writer -/

lemma toRow_keys (rec : Record) :
    (Record.toRow rec).map Prod.fst = recordFields := rfl

lemma toRow_all_keys (rec : Record) :
    ∀ kv ∈ Record.toRow rec, recordFields.contains kv.1 = true := by
  intro kv hkv
  simp only [Record.toRow, List.mem_cons, List.not_mem_nil, or_false] at hkv
  rcases hkv with h | h | h | h | h | h | h | h | h <;> subst h <;> rfl

/-- C6 counterexample: `write_csv` applied to zero records does not fail:
it succeeds, writing an empty header row (`fieldnames = []`). -/
theorem c6_counterexample :
    write_csv ([] : List (List (String × Val))) = Except.ok ⟨[], []⟩ := rfl

/-- C6 (amended): on a non-empty record sequence `write_csv` succeeds with a
header row equal to the record field names in their defined order; on zero
records it does not fail but succeeds with an empty header row. -/
theorem c6_writer_header (recs : List Record) :
    (recs ≠ [] →
      write_csv (recs.map Record.toRow) =
        Except.ok ⟨recordFields, recs.map Record.toRow⟩) ∧
    write_csv ([] : List (List (String × Val))) = Except.ok ⟨[], []⟩ := by
  refine ⟨?_, rfl⟩
  intro hne
  cases recs with
  | nil => exact absurd rfl hne
  | cons r rest =>
    unfold write_csv
    simp only [List.map_cons]
    rw [toRow_keys r]
    rw [if_pos]
    simp only [List.all_eq_true, List.mem_cons]
    intro row hrow
    rcases hrow with h | h
    · subst h
      exact toRow_all_keys r
    · obtain ⟨rec, _, rfl⟩ := List.mem_map.1 h
      exact toRow_all_keys rec

/-- Witness for C6 (amended) on a concrete one-record input. -/
theorem c6_writer_header_witness :
    write_csv ([(simStep witnessConfig defaultStart 8.0 ⟨fun _ => 0, 0⟩).1].map
        Record.toRow) =
      Except.ok ⟨recordFields,
        [(simStep witnessConfig defaultStart 8.0 ⟨fun _ => 0, 0⟩).1].map
          Record.toRow⟩ :=
  (c6_writer_header [(simStep witnessConfig defaultStart 8.0
    ⟨fun _ => 0, 0⟩).1]).1 (by simp)

/-! ## C7: the outdoor-temperature daily cycle -/

lemma ordinal_defaultStart_add {m : ℕ} (hm : m < 1440) :
    ordinal (defaultStart + m) = 739252 := by
  unfold ordinal defaultStart
  omega

lemma dayOfYear_defaultStart_add {m : ℕ} (hm : m < 1440) :
    dayOfYear (defaultStart + m) = 1 := by
  rw [dayOfYear, ordinal_defaultStart_add hm]
  decide

lemma hourFrac_defaultStart_add (m : ℕ) :
    hourFrac (defaultStart + m) = hourFrac m := by
  unfold hourFrac tsHour tsMinute defaultStart
  have h : (739251 * 1440 + m) % 1440 = m % 1440 := by omega
  rw [h]

lemma simulate_outdoor_temp_formula (ts : Timestamp) :
    simulate_outdoor_temp ts 9.0 3.5 =
      8 + 9.0 * Real.sin (2 * Real.pi * ((dayOfYear ts : ℝ) / 365)) +
      3.5 * Real.sin (2 * Real.pi * ((((hourFrac ts : ℚ) : ℝ) - 5) / 24)) := rfl

lemma simulate_outdoor_temp_day_one {m : ℕ} (hm : m < 1440) :
    simulate_outdoor_temp (defaultStart + m) 9.0 3.5 =
      8 + 9.0 * Real.sin (2 * Real.pi * (1 / 365)) +
      3.5 * Real.sin (2 * Real.pi * ((((hourFrac m : ℚ) : ℝ) - 5) / 24)) := by
  rw [simulate_outdoor_temp_formula, dayOfYear_defaultStart_add hm,
    hourFrac_defaultStart_add]
  norm_num

/-- C7 (code bug): `simulate_outdoor_temp` is exactly the stated
baseline-plus-seasonal-plus-daily-sinusoid formula, but the daily sinusoid
`3.5·sin(2π(h−5)/24)` attains its maximum at 11:00 and its minimum at
23:00, not ≈15:00 and ≈05:00 as the code's comment and the spec claim:
over the first simulated day the temperature is maximal at 11:00 (strictly
above its 15:00 value) and minimal at 23:00 (strictly below its 05:00
value). -/
theorem c7_outdoor_temp_phase :
    (∀ ts : Timestamp, simulate_outdoor_temp ts 9.0 3.5 =
        8 + 9.0 * Real.sin (2 * Real.pi * ((dayOfYear ts : ℝ) / 365)) +
        3.5 * Real.sin (2 * Real.pi * ((((hourFrac ts : ℚ) : ℝ) - 5) / 24))) ∧
    (∀ m : ℕ, m < 1440 →
      simulate_outdoor_temp (defaultStart + m) 9.0 3.5 ≤
        simulate_outdoor_temp (defaultStart + 11 * 60) 9.0 3.5 ∧
      simulate_outdoor_temp (defaultStart + 23 * 60) 9.0 3.5 ≤
        simulate_outdoor_temp (defaultStart + m) 9.0 3.5) ∧
    simulate_outdoor_temp (defaultStart + 15 * 60) 9.0 3.5 <
      simulate_outdoor_temp (defaultStart + 11 * 60) 9.0 3.5 ∧
    simulate_outdoor_temp (defaultStart + 5 * 60) 9.0 3.5 >
      simulate_outdoor_temp (defaultStart + 23 * 60) 9.0 3.5 := by
  have h11 : simulate_outdoor_temp (defaultStart + 11 * 60) 9.0 3.5 =
      8 + 9.0 * Real.sin (2 * Real.pi * (1 / 365)) + 3.5 * 1 := by
    rw [simulate_outdoor_temp_day_one (by norm_num)]
    have hh : ((hourFrac (11 * 60) : ℚ) : ℝ) = 11 := by
      norm_num [hourFrac, tsHour, tsMinute]
    rw [hh, show 2 * Real.pi * (((11 : ℝ) - 5) / 24) = Real.pi / 2 by ring,
      Real.sin_pi_div_two]
  have h15 : simulate_outdoor_temp (defaultStart + 15 * 60) 9.0 3.5 =
      8 + 9.0 * Real.sin (2 * Real.pi * (1 / 365)) + 3.5 * (1 / 2) := by
    rw [simulate_outdoor_temp_day_one (by norm_num)]
    have hh : ((hourFrac (15 * 60) : ℚ) : ℝ) = 15 := by
      norm_num [hourFrac, tsHour, tsMinute]
    rw [hh, show 2 * Real.pi * (((15 : ℝ) - 5) / 24) = Real.pi - Real.pi / 6
        by ring,
      Real.sin_pi_sub, Real.sin_pi_div_six]
  have h5 : simulate_outdoor_temp (defaultStart + 5 * 60) 9.0 3.5 =
      8 + 9.0 * Real.sin (2 * Real.pi * (1 / 365)) + 3.5 * 0 := by
    rw [simulate_outdoor_temp_day_one (by norm_num)]
    have hh : ((hourFrac (5 * 60) : ℚ) : ℝ) = 5 := by
      norm_num [hourFrac, tsHour, tsMinute]
    rw [hh, show 2 * Real.pi * (((5 : ℝ) - 5) / 24) = 0 by ring, Real.sin_zero]
  have h23 : simulate_outdoor_temp (defaultStart + 23 * 60) 9.0 3.5 =
      8 + 9.0 * Real.sin (2 * Real.pi * (1 / 365)) + 3.5 * (-1) := by
    rw [simulate_outdoor_temp_day_one (by norm_num)]
    have hh : ((hourFrac (23 * 60) : ℚ) : ℝ) = 23 := by
      norm_num [hourFrac, tsHour, tsMinute]
    rw [hh, show 2 * Real.pi * (((23 : ℝ) - 5) / 24) = Real.pi + Real.pi / 2
        by ring,
      Real.sin_add, Real.sin_pi, Real.cos_pi, Real.sin_pi_div_two]
    ring
  refine ⟨fun ts => simulate_outdoor_temp_formula ts, fun m hm => ?_, ?_, ?_⟩
  · rw [simulate_outdoor_temp_day_one hm, h11, h23]
    constructor
    · have := Real.sin_le_one (2 * Real.pi * ((((hourFrac m : ℚ) : ℝ) - 5) / 24))
      linarith
    · have := Real.neg_one_le_sin
        (2 * Real.pi * ((((hourFrac m : ℚ) : ℝ) - 5) / 24))
      linarith
  · rw [h11, h15]
    linarith
  · rw [h5, h23]
    linarith

/-- Witness for C7's quantified conjunct at the concrete minute 900
(15:00 of the first simulated day). -/
theorem c7_outdoor_temp_phase_witness :
    simulate_outdoor_temp (defaultStart + 900) 9.0 3.5 ≤
      simulate_outdoor_temp (defaultStart + 11 * 60) 9.0 3.5 ∧
    simulate_outdoor_temp (defaultStart + 23 * 60) 9.0 3.5 ≤
      simulate_outdoor_temp (defaultStart + 900) 9.0 3.5 :=
  c7_outdoor_temp_phase.2.1 900 (by norm_num)

/-! ## C4: the inertia boundary -/

/-- The spec's step-5 "deterministic baseline energy target" of one step,
as a function of the step's timestamp and the generator state at the start
of the step (the activation term uses the occupancy drawn at this step). -/
noncomputable def baselineTarget (cfg : SimConfig) (ts : Timestamp)
    (r : Rng) : ℝ :=
  let x3_open := simulate_open_regime ts
  let x2_temp_out := simulate_outdoor_temp ts 9.0 3.5
  let x2_pressure := temp_pressure x2_temp_out 20 23
  let x1_occ := (simulate_occupancy ts x3_open cfg.academic_intensity r).1
  let x5_availability := (0.7 + 0.3 * (x3_open : ℝ)) * cfg.building_factor_x4
  let m1_activation := clamp
    ((cfg.regime_to_activation * (x3_open : ℝ) +
      cfg.occ_to_activation * x1_occ +
      cfg.temp_to_activation * x2_pressure) * x5_availability) 0 2
  (if x3_open = 1 then cfg.base_kwh_when_open else cfg.base_kwh_when_closed) *
      cfg.building_factor_x4 +
    cfg.activation_to_kwh * m1_activation +
    cfg.direct_temp_to_kwh * x2_pressure

/-- The noise deviate consumed by one step (the draw following the step's
occupancy draw, if any), scaled by `noise_sigma`. -/
noncomputable def stepNoise (cfg : SimConfig) (ts : Timestamp) (r : Rng) : ℝ :=
  cfg.noise_sigma * r.stream (r.pos + simulate_open_regime ts)

lemma simStep_y_recorded (cfg : SimConfig) (ts : Timestamp) (y : ℝ)
    (r : Rng) :
    (simStep cfg ts y r).1.y_kwh = pyRound 4 (simStep cfg ts y r).2.1 := rfl

lemma simStep_out (cfg : SimConfig) (ts : Timestamp) (y : ℝ) (r : Rng) :
    (simStep cfg ts y r).2.1 =
      max 0 (cfg.inertia_phi * y +
        (1 - cfg.inertia_phi) * baselineTarget cfg ts r +
        stepNoise cfg ts r) := by
  rcases simulate_open_regime_eq_zero_or_one ts with h | h <;>
    simp [simStep, baselineTarget, stepNoise, Rng.normalvariate,
      simulate_occupancy, h]

lemma simStep_out_phi_one (cfg : SimConfig) (h : cfg.inertia_phi = 1)
    (ts : Timestamp) (y : ℝ) (r : Rng) :
    (simStep cfg ts y r).2.1 = max 0 (y + stepNoise cfg ts r) := by
  rw [simStep_out, h]
  norm_num

lemma simStep_out_phi_zero (cfg : SimConfig) (h : cfg.inertia_phi = 0)
    (ts : Timestamp) (y : ℝ) (r : Rng) :
    (simStep cfg ts y r).2.1 =
      max 0 (baselineTarget cfg ts r + stepNoise cfg ts r) := by
  rw [simStep_out, h]
  norm_num

lemma simStep_phi_zero_const (cfg : SimConfig) (h : cfg.inertia_phi = 0)
    (ts : Timestamp) (y₁ y₂ : ℝ) (r : Rng) :
    simStep cfg ts y₁ r = simStep cfg ts y₂ r := by
  simp [simStep, h]

lemma simLoop_phi_zero (cfg : SimConfig) (h : cfg.inertia_phi = 0) :
    ∀ (l : List Timestamp) (y₁ y₂ : ℝ) (r : Rng),
      (simLoop cfg l y₁ r).1 = (simLoop cfg l y₂ r).1
  | [], _, _, _ => rfl
  | ts :: rest, y₁, y₂, r => by
    simp only [simLoop]
    rw [simStep_phi_zero_const cfg h ts y₁ y₂ r]

/-- C4 counterexample: with `inertia_phi = 1`, two closed night steps under
a stream of deviates equal to −1000 (noise −2500 per step) give recorded
outputs 0 and 0, while the claim demands the second output equal the first
output plus the noise draw, −2500: the `max(0, ·)` floor breaks the claimed
equality. -/
theorem c4_counterexample :
    ((simLoop { defaultConfig with inertia_phi := 1 }
        [defaultStart, defaultStart + 60] 8 ⟨fun _ => -1000, 0⟩).1.map
          Record.y_kwh) = [0, 0] ∧
    stepNoise { defaultConfig with inertia_phi := 1 } (defaultStart + 60)
      (simLoop { defaultConfig with inertia_phi := 1 } [defaultStart] 8
        ⟨fun _ => -1000, 0⟩).2.2 = -2500 ∧
    (0 : ℝ) ≠ 0 + -2500 := by
  have hphi : ({ defaultConfig with inertia_phi := 1 } :
      SimConfig).inertia_phi = 1 := rfl
  have hout1 : (simStep { defaultConfig with inertia_phi := 1 } defaultStart
      8 ⟨fun _ => -1000, 0⟩).2.1 = 0 := by
    rw [simStep_out_phi_one _ hphi]
    norm_num [stepNoise, defaultConfig]
  have hout2 : ∀ r : Rng, r.stream = (fun _ => -1000) →
      (simStep { defaultConfig with inertia_phi := 1 } (defaultStart + 60)
        0 r).2.1 = 0 := by
    intro r hr
    rw [simStep_out_phi_one _ hphi]
    norm_num [stepNoise, hr, defaultConfig]
  have hstr : (simStep { defaultConfig with inertia_phi := 1 } defaultStart
      8 ⟨fun _ => -1000, 0⟩).2.2.stream = fun _ => -1000 := by
    rw [simStep_rng]
  refine ⟨?_, ?_, by norm_num⟩
  · simp only [simLoop, List.map_cons, List.map_nil]
    rw [simStep_y_recorded, simStep_y_recorded, hout1, hout2 _ hstr,
      pyRound_zero]
  · show ({ defaultConfig with inertia_phi := 1 } :
        SimConfig).noise_sigma * _ = -2500
    rw [(simLoop_rng _ [defaultStart] 8 ⟨fun _ => -1000, 0⟩).1]
    norm_num [defaultConfig]

/-- C4 (amended): write `y_k` for the internal (pre-rounding) output carried
out of step `k` (`y₀` before any step) and `ν_k` for step `k`'s noise draw.
With `inertia_phi = 1` every step's internal output is
`max(0, y_{k-1} + ν_k)` — the baseline target has zero weight, but the
result is floored at 0 — and the recorded `Y_kwh` is its 4-decimal
rounding; with `inertia_phi = 0` every recorded output is the 4-decimal
rounding of `max(0, baseline-target + ν_k)` and the record sequence is
independent of the initial carried value (the history enters only through
the generator position). -/
theorem c4_inertia_boundary (cfg : SimConfig) (l : List Timestamp) (y0 : ℝ)
    (r0 : Rng) (k : ℕ) (hk : k < l.length) :
    (cfg.inertia_phi = 1 →
      (simLoop cfg (l.take (k + 1)) y0 r0).2.1 =
        max 0 ((simLoop cfg (l.take k) y0 r0).2.1 +
          stepNoise cfg (l.get ⟨k, hk⟩) (simLoop cfg (l.take k) y0 r0).2.2) ∧
      ((simLoop cfg l y0 r0).1.get
          ⟨k, by rw [simLoop_length]; exact hk⟩).y_kwh =
        pyRound 4 (max 0 ((simLoop cfg (l.take k) y0 r0).2.1 +
          stepNoise cfg (l.get ⟨k, hk⟩)
            (simLoop cfg (l.take k) y0 r0).2.2))) ∧
    (cfg.inertia_phi = 0 →
      ((simLoop cfg l y0 r0).1.get
          ⟨k, by rw [simLoop_length]; exact hk⟩).y_kwh =
        pyRound 4 (max 0 (baselineTarget cfg (l.get ⟨k, hk⟩)
            (simLoop cfg (l.take k) y0 r0).2.2 +
          stepNoise cfg (l.get ⟨k, hk⟩)
            (simLoop cfg (l.take k) y0 r0).2.2)) ∧
      ∀ y1 : ℝ, (simLoop cfg l y1 r0).1 = (simLoop cfg l y0 r0).1) := by
  constructor
  · intro hphi
    constructor
    · have hst := simLoop_state_take_succ cfg l k hk y0 r0
      have h1 : (simLoop cfg (l.take (k + 1)) y0 r0).2.1 =
          (simStep cfg (l.get ⟨k, hk⟩) (simLoop cfg (l.take k) y0 r0).2.1
            (simLoop cfg (l.take k) y0 r0).2.2).2.1 := congrArg Prod.fst hst
      rw [h1, simStep_out_phi_one cfg hphi]
    · rw [simLoop_get cfg l k hk y0 r0, simStep_y_recorded,
        simStep_out_phi_one cfg hphi]
  · intro hphi
    constructor
    · rw [simLoop_get cfg l k hk y0 r0, simStep_y_recorded,
        simStep_out_phi_zero cfg hphi]
    · intro y1
      exact simLoop_phi_zero cfg hphi l y1 y0 r0

/-- Witness for C4 (amended): both inertia extremes at a concrete one-step
run. -/
theorem c4_inertia_boundary_witness :
    ((simLoop { defaultConfig with inertia_phi := 1 } ([defaultStart].take 1)
        8 ⟨fun _ => 0, 0⟩).2.1 =
      max 0 ((simLoop { defaultConfig with inertia_phi := 1 }
          ([defaultStart].take 0) 8 ⟨fun _ => 0, 0⟩).2.1 +
        stepNoise { defaultConfig with inertia_phi := 1 }
          ([defaultStart].get ⟨0, by norm_num⟩)
          (simLoop { defaultConfig with inertia_phi := 1 }
            ([defaultStart].take 0) 8 ⟨fun _ => 0, 0⟩).2.2)) ∧
    (∀ y1 : ℝ, (simLoop { defaultConfig with inertia_phi := 0 }
        [defaultStart] y1 ⟨fun _ => 0, 0⟩).1 =
      (simLoop { defaultConfig with inertia_phi := 0 } [defaultStart] 8
        ⟨fun _ => 0, 0⟩).1) :=
  ⟨((c4_inertia_boundary { defaultConfig with inertia_phi := 1 }
      [defaultStart] 8 ⟨fun _ => 0, 0⟩ 0 (by norm_num)).1 rfl).1,
   ((c4_inertia_boundary { defaultConfig with inertia_phi := 0 }
      [defaultStart] 8 ⟨fun _ => 0, 0⟩ 0 (by norm_num)).2 rfl).2⟩

/-! ## C10: zero occupancy at an open timestamp -/

/-- A one-day hourly configuration used for the C10 run. -/
noncomputable def oneDayConfig : SimConfig := { defaultConfig with n_days := 1 }

lemma occupancy_zero_at_open_nine {r : Rng} (hr : r.stream r.pos = -1000000) :
    (simulate_occupancy (defaultStart + 9 * 60) 1 1 r).1 = 0 := by
  unfold simulate_occupancy
  rw [if_neg (by norm_num)]
  dsimp only
  have hw : weekday (defaultStart + 9 * 60) ≤ 4 := by
    norm_num [weekday, ordinal, defaultStart]
  rw [if_pos hw, Rng.normalvariate]
  dsimp only
  rw [hr]
  set h : ℝ := ((hourFrac (defaultStart + 9 * 60) : ℚ) : ℝ) with hh
  have he1 : Real.exp (-((h - 13) ^ 2) / (2 * 3.5 ^ 2)) ≤ 1 := by
    rw [Real.exp_le_one_iff, neg_div]
    have : (0 : ℝ) ≤ (h - 13) ^ 2 / (2 * 3.5 ^ 2) := by positivity
    linarith
  have he2 : Real.exp (-((h - 18) ^ 2) / (2 * 2.8 ^ 2)) ≤ 1 := by
    rw [Real.exp_le_one_iff, neg_div]
    have : (0 : ℝ) ≤ (h - 18) ^ 2 / (2 * 2.8 ^ 2) := by positivity
    linarith
  have he1' := Real.exp_pos (-((h - 13) ^ 2) / (2 * 3.5 ^ 2))
  have he2' := Real.exp_pos (-((h - 18) ^ 2) / (2 * 2.8 ^ 2))
  apply clamp_of_le_lo 220 _ (by norm_num)
  nlinarith

/-- C10: `simulate_occupancy` can return exactly 0 at an open timestamp (a
sufficiently negative deviate is clamped up to the lower bound 0), and
consequently a `simulate` run can emit a record with `X1_occupancy = 0` and
`X3_open = 1`: a zero occupancy does not imply a closed regime. -/
theorem c10_zero_occupancy_while_open :
    simulate_open_regime (defaultStart + 9 * 60) = 1 ∧
    (simulate_occupancy (defaultStart + 9 * 60) 1 1
      ⟨fun _ => -1000000, 0⟩).1 = 0 ∧
    ∃ rec ∈ simulate (fun _ _ => -1000000) oneDayConfig none,
      rec.x1_occupancy = 0 ∧ rec.x3_open = 1 := by
  have hreg : simulate_open_regime (defaultStart + 9 * 60) = 1 := by
    norm_num [simulate_open_regime, hourFrac, tsHour, tsMinute, weekday,
      ordinal, defaultStart]
  refine ⟨hreg, occupancy_zero_at_open_nine rfl, ?_⟩
  have hsim : simulate (fun _ _ => -1000000) oneDayConfig none =
      (simLoop oneDayConfig (generate_time_index defaultStart 24 60) 8
        ⟨fun _ => -1000000, 0⟩).1 := by
    show (simLoop _ (generate_time_index _ _ _) _ _).1 = _
    norm_num [oneDayConfig, defaultConfig]
  have hlen : 9 < (generate_time_index defaultStart 24 60).length := by
    simp [generate_time_index]
  have hts : (generate_time_index defaultStart 24 60).get ⟨9, hlen⟩ =
      defaultStart + 9 * 60 := by
    simp [generate_time_index]
  have h9 : 9 < (simulate (fun _ _ => -1000000) oneDayConfig none).length := by
    rw [hsim, simLoop_length]
    exact hlen
  refine ⟨(simulate (fun _ _ => -1000000) oneDayConfig none).get ⟨9, h9⟩,
    List.get_mem _ _ _, ?_, ?_⟩
  all_goals
    have hget : (simulate (fun _ _ => -1000000) oneDayConfig none).get
        ⟨9, h9⟩ =
        (simStep oneDayConfig (defaultStart + 9 * 60)
          (simLoop oneDayConfig ((generate_time_index defaultStart 24 60).take 9)
            8 ⟨fun _ => -1000000, 0⟩).2.1
          (simLoop oneDayConfig ((generate_time_index defaultStart 24 60).take 9)
            8 ⟨fun _ => -1000000, 0⟩).2.2).1 := by
      rw [show ((simulate (fun _ _ => -1000000) oneDayConfig none).get ⟨9, h9⟩ =
          ((simLoop oneDayConfig (generate_time_index defaultStart 24 60) 8
            ⟨fun _ => -1000000, 0⟩).1).get
              ⟨9, by rw [simLoop_length]; exact hlen⟩) from by
        congr 1 <;> rw [hsim]]
      rw [simLoop_get oneDayConfig _ 9 hlen, hts]
  · rw [hget, simStep_x1, hreg]
    have hstream : (simLoop oneDayConfig
        ((generate_time_index defaultStart 24 60).take 9) 8
        ⟨fun _ => -1000000, 0⟩).2.2.stream = fun _ => -1000000 :=
      (simLoop_rng _ _ _ _).1
    have hai : oneDayConfig.academic_intensity = 1 := rfl
    rw [hai, occupancy_zero_at_open_nine (by rw [hstream]), pyRound_zero]
  · rw [hget, simStep_x3, hreg]
    norm_num

end Claro
